import Mathlib

/-!
Verification of the Wonderland training analytics engine.

The engine is embedded shallowly: calendar dates are modelled by a
year/month/day structure together with their proleptic-Gregorian ordinal
(days since 0001-01-00, so that 0001-01-01 has ordinal 1, a Monday),
floating-point arithmetic is modelled exactly by rationals, and the
record store is an explicit list of workout records.  Each definition
mirrors one function of the application source.
-/

/-- A calendar date, as in Python's `datetime.date` (year, month, day). -/
structure Date where
  year : ℤ
  month : ℤ
  day : ℤ
deriving DecidableEq

/-- Gregorian leap-year rule. -/
def isLeap (y : ℤ) : Bool :=
  (y % 4 == 0 && y % 100 != 0) || y % 400 == 0

/-- Number of days in a month of a given year. -/
def daysInMonth (y m : ℤ) : ℤ :=
  if m = 2 then (if isLeap y then 29 else 28)
  else if m = 4 ∨ m = 6 ∨ m = 9 ∨ m = 11 then 30
  else 31

/-- A well-formed calendar date (as accepted by `datetime.date`). -/
def Date.Valid (d : Date) : Prop :=
  1 ≤ d.year ∧ 1 ≤ d.month ∧ d.month ≤ 12 ∧ 1 ≤ d.day ∧ d.day ≤ daysInMonth d.year d.month

instance (d : Date) : Decidable d.Valid :=
  inferInstanceAs
    (Decidable (1 ≤ d.year ∧ 1 ≤ d.month ∧ d.month ≤ 12 ∧ 1 ≤ d.day ∧
      d.day ≤ daysInMonth d.year d.month))

/-- Python date comparison: lexicographic on (year, month, day). -/
def dateLtB (a b : Date) : Bool :=
  decide (a.year < b.year ∨
    (a.year = b.year ∧ (a.month < b.month ∨ (a.month = b.month ∧ a.day < b.day))))

/-- Propositional form of `dateLtB`. -/
def dateLt (a b : Date) : Prop := dateLtB a b = true

instance (a b : Date) : Decidable (dateLt a b) :=
  inferInstanceAs (Decidable (dateLtB a b = true))

/-- Days in the months strictly before month `m` of year `y`. -/
def daysBeforeMonth (y m : ℤ) : ℤ :=
  let base :=
    if m ≤ 1 then 0 else if m = 2 then 31 else if m = 3 then 59 else if m = 4 then 90
    else if m = 5 then 120 else if m = 6 then 151 else if m = 7 then 181
    else if m = 8 then 212 else if m = 9 then 243 else if m = 10 then 273
    else if m = 11 then 304 else 334
  if 3 ≤ m ∧ isLeap y then base + 1 else base

/-- Days in the years strictly before year `y` (proleptic Gregorian). -/
def daysBeforeYear (y : ℤ) : ℤ :=
  365 * (y - 1) + (y - 1) / 4 - (y - 1) / 100 + (y - 1) / 400

/-- Python `date.toordinal`: 0001-01-01 has ordinal 1. -/
def Date.toOrdinal (d : Date) : ℤ :=
  daysBeforeYear d.year + daysBeforeMonth d.year d.month + d.day

/-- Python `date.weekday` on an ordinal: Monday is 0, Sunday is 6. -/
def weekday (n : ℤ) : ℤ := (n - 1) % 7

/-- Python `date.isoweekday`: Monday is 1, Sunday is 7. -/
def isoWeekday (n : ℤ) : ℤ := weekday n + 1

/-- `week_range` from the source: the Monday-anchored half-open week
window around an ordinal date, `(start, start + 7)`. -/
def week_range (n : ℤ) : ℤ × ℤ :=
  (n - weekday n, n - weekday n + 7)

/-- A workout record, with `session_date` as a date ordinal.  Floats of
the source are modelled exactly as rationals. -/
structure Workout where
  session_date : ℤ
  type : String
  duration_min : ℤ
  distance_mi : ℚ
  incline_pct : ℚ
  pack_lb : ℚ
  rpe : ℤ
  notes : Option String
deriving DecidableEq

/-- `Workout.vertical_ft`: distance (mi) × 5280 × grade fraction. -/
def vertical_ft (w : Workout) : ℚ :=
  w.distance_mi * 5280 * (w.incline_pct / 100)

/-- `Workout.load_score`: vertical-weighted load. -/
def load_score (w : Workout) : ℚ :=
  vertical_ft w * (1 + w.pack_lb / 50)

/-- `Workout.session_stress`: duration × max(rpe,1) × pack factor. -/
def session_stress (w : Workout) : ℚ :=
  (w.duration_min : ℚ) * ((max w.rpe 1 : ℤ) : ℚ) * (1 + w.pack_lb / 40)

/-- Weekly target bundle for a training phase. -/
structure PhaseTargets where
  name : String
  vert_min : ℤ
  vert_max : ℤ
  long_min : ℤ
  long_max : ℤ
  pack_min : ℤ
  pack_max : ℤ
deriving DecidableEq

/-- `phase_for` from the source: training phase of a date, by comparing
against Apr 1, Jun 1 and Aug 1 of the date's own year. -/
def phase_for (d : Date) : PhaseTargets :=
  if dateLtB d ⟨d.year, 4, 1⟩ then ⟨"Base", 1500, 2000, 45, 60, 0, 5⟩
  else if dateLtB d ⟨d.year, 6, 1⟩ then ⟨"Build", 3000, 4500, 60, 75, 10, 20⟩
  else if dateLtB d ⟨d.year, 8, 1⟩ then ⟨"Peak", 6000, 9000, 75, 90, 20, 35⟩
  else ⟨"Taper", 2000, 3000, 45, 60, 0, 15⟩

/-- Python's `round` to an integer: round half to even (banker's). -/
def bround (q : ℚ) : ℤ :=
  if q - ⌊q⌋ < 1 / 2 then ⌊q⌋
  else if 1 / 2 < q - ⌊q⌋ then ⌊q⌋ + 1
  else if ⌊q⌋ % 2 = 0 then ⌊q⌋ else ⌊q⌋ + 1

/-- Python's `round(x, 1)`: round to one decimal place. -/
def round1 (q : ℚ) : ℚ := (bround (q * 10) : ℚ) / 10

/-- The record-store query of `sum_week_metrics`: records whose
`session_date` lies in the half-open window `[start, stop)`. -/
def weekFilter (records : List Workout) (start stop : ℤ) : List Workout :=
  records.filter (fun w => decide (start ≤ w.session_date ∧ w.session_date < stop))

/-- Python `max(xs, default=0)`: the maximum of a list, 0 when empty. -/
def pyMax0 : List ℤ → ℤ
  | [] => 0
  | a :: as => as.foldl max a

/-- The weekly aggregate returned by `sum_week_metrics`. -/
structure WeekMetrics where
  vert : ℚ
  stress : ℚ
  avg_pack : ℚ
  max_long : ℤ
  count : ℚ
  missed : ℚ
deriving DecidableEq

/-- `sum_week_metrics` from the source: aggregate the records of the
half-open window `[start, stop)`. -/
def sum_week_metrics (records : List Workout) (start stop : ℤ) : WeekMetrics :=
  let rows := weekFilter records start stop
  { vert := (rows.map vertical_ft).sum
    stress := (rows.map session_stress).sum
    avg_pack :=
      match rows with
      | [] => 0
      | _ :: _ => (rows.map (fun w => w.pack_lb)).sum / rows.length
    max_long := pyMax0 (rows.map (fun w => w.duration_min))
    count := rows.length
    missed := 0 }

/-- The record-store query behind the trailing mean-RPE lookup of
`risk_flags`: `session_date >= today - 7 AND session_date <= today`. -/
def rpeWindow (records : List Workout) (n : ℤ) : List Workout :=
  records.filter (fun w => decide (n - 7 ≤ w.session_date ∧ w.session_date ≤ n))

/-- The `overuse_rpe` rule of `risk_flags`: SQL `AVG(rpe)` over the
trailing window is `NULL` on no rows (no flag), else compared to 7. -/
def overuseRpeFlag (records : List Workout) (n : ℤ) : Bool :=
  match rpeWindow records n with
  | [] => false
  | w :: ws => decide ((7 : ℚ) ≤ ((w :: ws).map (fun r => (r.rpe : ℚ))).sum / (w :: ws).length)

/-- The injury keywords scanned by `risk_flags`. -/
def keywordList : List String := ["pain", "knee", "foot", "shin", "achilles", "hip"]

/-- Whether `pat` occurs at the head of `l`. -/
def leadSeq : List Char → List Char → Bool
  | [], _ => true
  | _ :: _, [] => false
  | a :: asl, b :: bs => a == b && leadSeq asl bs

/-- Python `pat in s` on character lists: substring occurrence. -/
def containsSeq (pat : List Char) : List Char → Bool
  | [] => pat.isEmpty
  | b :: t => leadSeq pat (b :: t) || containsSeq pat t

/-- One note matches when it is non-empty and, lower-cased, contains one
of the injury keywords. -/
def noteHit (s : String) : Bool :=
  !s.isEmpty && keywordList.any (fun k => containsSeq k.toList (s.toList.map Char.toLower))

/-- The `injury_signal` rule of `risk_flags`: scan the notes of records
with `session_date >= today - 14` (the query has no upper bound). -/
def injuryFlag (records : List Workout) (n : ℤ) : Bool :=
  let recent :=
    (records.filter (fun w => decide (n - 14 ≤ w.session_date) && w.notes.isSome)).map
      (fun w => w.notes)
  recent.any (fun o =>
    match o with
    | some s => noteHit s
    | none => false)

/-- The `undertraining` rule of `risk_flags`: both weekly verticals below
70% of the phase's minimum target. -/
def undertrainingFlag (tw pw : WeekMetrics) (tgt : PhaseTargets) : Bool :=
  let this_ratio : ℚ := if tgt.vert_min ≠ 0 then tw.vert / ((max tgt.vert_min 1 : ℤ) : ℚ) else 0
  let prev_ratio : ℚ := if tgt.vert_min ≠ 0 then pw.vert / ((max tgt.vert_min 1 : ℤ) : ℚ) else 0
  decide (this_ratio < 0.7 ∧ prev_ratio < 0.7)

/-- The flag set produced by one evaluation of `risk_flags`. -/
structure RiskFlags where
  overuse_vertical : Bool
  overuse_pack : Bool
  overuse_rpe : Bool
  undertraining : Bool
  injury_signal : Bool
deriving DecidableEq

/-- `risk_flags` from the source, over an explicit record store. -/
def risk_flags (records : List Workout) (today : Date) : RiskFlags :=
  let n := today.toOrdinal
  let this_ws := (week_range n).1
  let this_we := (week_range n).2
  let prev_ws := this_ws - 7
  let prev_we := this_we - 7
  let tw := sum_week_metrics records this_ws this_we
  let pw := sum_week_metrics records prev_ws prev_we
  { overuse_vertical := decide (0 < pw.vert ∧ pw.vert * 1.25 < tw.vert)
    overuse_pack := decide ((5 : ℚ) < tw.avg_pack - pw.avg_pack)
    overuse_rpe := overuseRpeFlag records n
    undertraining := undertrainingFlag tw pw (phase_for today)
    injury_signal := injuryFlag records n }

/-- The numeric columns of `last_n_weeks_series` (the formatted week
labels are presentation-only and carry no data beyond the week starts). -/
structure SeriesData where
  verts : List ℤ
  packs : List ℚ
  stresses : List ℚ
deriving DecidableEq

/-- `last_n_weeks_series` from the source, with the ambient current date
passed explicitly: one aggregate per week offset `i = n-1 … 0`. -/
def last_n_weeks_series (records : List Workout) (today : ℤ) (n : ℕ) : SeriesData :=
  let start_this_week := (week_range today).1
  let ms := ((List.range n).reverse).map (fun (i : ℕ) =>
    sum_week_metrics records (start_this_week - 7 * (i : ℤ)) (start_this_week - 7 * (i : ℤ) + 7))
  { verts := ms.map (fun m => bround m.vert)
    packs := ms.map (fun m => round1 m.avg_pack)
    stresses := ms.map (fun m => round1 m.stress) }

/-- The 28-day max-duration query of `readiness_score`:
`session_date >= start_of_this_week - 28 AND session_date <= today`. -/
def win28 (records : List Workout) (n : ℤ) : List Workout :=
  records.filter (fun w =>
    decide ((week_range n).1 - 28 ≤ w.session_date ∧ w.session_date ≤ n))

/-- SQL `MAX(duration_min)` over `win28`, with the source's `or 0`
fallback for the empty window. -/
def max_long_28 (records : List Workout) (n : ℤ) : ℤ :=
  pyMax0 ((win28 records n).map (fun w => w.duration_min))

/-- `readiness_score` from the source: blend of the 4-week mean rounded
vertical, 4-week mean rounded pack, and 28-day max duration. -/
def readiness_score (records : List Workout) (today : Date) : ℤ :=
  let n := today.toOrdinal
  let series := last_n_weeks_series records n 4
  let verts := series.verts
  let packs := series.packs
  let four_week_avg_vert : ℚ := (verts.map (fun v => (v : ℚ))).sum / ((max verts.length 1 : ℕ) : ℚ)
  let four_week_avg_pack : ℚ := packs.sum / ((max packs.length 1 : ℕ) : ℚ)
  let max_long := max_long_28 records n
  let tgt := phase_for today
  let peak_target : ℚ := if tgt.name ≠ "Peak" then 9000 else 9000
  let goal_pack : ℚ := 30
  let s := four_week_avg_vert / peak_target * 0.4 + four_week_avg_pack / goal_pack * 0.3 +
    (max_long : ℚ) / 90 * 0.3
  max 0 (min 100 (bround (s * 100)))

/-- The refactoring described by the spec: identical to
`readiness_score` except that the phase-conditional normalization anchor
is collapsed to the constant 9000. -/
def readiness_score_collapsed (records : List Workout) (today : Date) : ℤ :=
  let n := today.toOrdinal
  let series := last_n_weeks_series records n 4
  let verts := series.verts
  let packs := series.packs
  let four_week_avg_vert : ℚ := (verts.map (fun v => (v : ℚ))).sum / ((max verts.length 1 : ℕ) : ℚ)
  let four_week_avg_pack : ℚ := packs.sum / ((max packs.length 1 : ℕ) : ℚ)
  let max_long := max_long_28 records n
  let peak_target : ℚ := 9000
  let goal_pack : ℚ := 30
  let s := four_week_avg_vert / peak_target * 0.4 + four_week_avg_pack / goal_pack * 0.3 +
    (max_long : ℚ) / 90 * 0.3
  max 0 (min 100 (bround (s * 100)))

/-- The final blend stage of `readiness_score`, as a function of the
three aggregate inputs (mean vertical, mean pack, max duration). -/
def score_blend (mean_vert mean_pack max_long : ℚ) : ℤ :=
  let s := mean_vert / 9000 * 0.4 + mean_pack / 30 * 0.3 + max_long / 90 * 0.3
  max 0 (min 100 (bround (s * 100)))

/-- Monday 2024-01-08 (ordinal 738893). -/
def d1 : Date := ⟨2024, 1, 8⟩

/-- Sunday 2024-01-07 (ordinal 738892). -/
def d2 : Date := ⟨2024, 1, 7⟩

/-- A high-RPE session dated exactly 7 days before `d1`. -/
def rec1 : Workout := ⟨738886, "incline", 60, 0, 0, 0, 10, none⟩

/-- A 500-minute session dated 30 days before `d2`. -/
def recC2 : Workout := ⟨738862, "incline", 500, 0, 0, 0, 5, none⟩

/-- A note with an injury keyword. -/
def kneePainNote : String := "knee pain"

/-- A session dated 5 days after `d1`, carrying an injury-keyword note. -/
def futRec : Workout := ⟨738898, "incline", 60, 0, 0, 0, 5, some kneePainNote⟩

/-- The worked injury note of the spec. -/
def soreNote : String := "mild right knee soreness"

/-- A session at a given date carrying the spec's worked injury note. -/
def soreRec (sd : ℤ) : Workout := ⟨sd, "incline", 60, 0, 0, 0, 5, some soreNote⟩

/-- The worked example record of the spec: incline, 90 min, 3 mi, 20%,
25 lb pack, RPE 7. -/
def exampleWorkout : Workout := ⟨738893, "incline", 90, 3, 20, 25, 7, none⟩

lemma dateLt_iff (a b : Date) :
    dateLt a b ↔
      (a.year < b.year ∨
        (a.year = b.year ∧ (a.month < b.month ∨ (a.month = b.month ∧ a.day < b.day)))) := by
  simp [dateLt, dateLtB]

lemma floor_le_bround (q : ℚ) : ⌊q⌋ ≤ bround q := by
  unfold bround
  split_ifs <;> omega

lemma bround_le_floor_add_one (q : ℚ) : bround q ≤ ⌊q⌋ + 1 := by
  unfold bround
  split_ifs <;> omega

lemma bround_mono {a b : ℚ} (h : a ≤ b) : bround a ≤ bround b := by
  rcases lt_or_le ⌊a⌋ ⌊b⌋ with hf | hf
  · calc bround a ≤ ⌊a⌋ + 1 := bround_le_floor_add_one a
      _ ≤ ⌊b⌋ := by omega
      _ ≤ bround b := floor_le_bround b
  · have hfe : ⌊a⌋ = ⌊b⌋ := le_antisymm (Int.floor_mono h) hf
    unfold bround
    rw [hfe]
    split_ifs <;> first | omega | linarith

lemma clamp_nonneg (x : ℤ) : 0 ≤ max 0 (min 100 x) := le_max_left _ _

lemma clamp_le_100 (x : ℤ) : max 0 (min 100 x) ≤ 100 :=
  max_le (by norm_num) (min_le_left _ _)

lemma clamp_mono {x y : ℤ} (h : x ≤ y) :
    max 0 (min 100 x) ≤ max 0 (min 100 y) :=
  max_le_max le_rfl (min_le_min le_rfl h)

lemma le_foldl_max_init (l : List ℤ) (a : ℤ) : a ≤ l.foldl max a := by
  induction l generalizing a with
  | nil => exact le_rfl
  | cons b t ih => exact le_trans (le_max_left a b) (ih (max a b))

lemma le_foldl_max_mem {l : List ℤ} {x : ℤ} (hx : x ∈ l) (a : ℤ) : x ≤ l.foldl max a := by
  induction l generalizing a with
  | nil => cases hx
  | cons b t ih =>
      rcases List.mem_cons.mp hx with rfl | hxt
      · exact le_trans (le_max_right a x) (le_foldl_max_init t (max a x))
      · exact ih hxt (max a b)

lemma foldl_max_cases (l : List ℤ) (a : ℤ) : l.foldl max a = a ∨ l.foldl max a ∈ l := by
  induction l generalizing a with
  | nil => exact Or.inl rfl
  | cons b t ih =>
      rcases ih (max a b) with hm | hm
      · rcases max_choice a b with hab | hab
        · exact Or.inl (by rw [List.foldl_cons, hm, hab])
        · exact Or.inr (by rw [List.foldl_cons, hm, hab]; exact List.mem_cons_self b t)
      · exact Or.inr (List.mem_cons_of_mem b hm)

lemma pyMax0_spec (l : List ℤ) :
    (l = [] ∧ pyMax0 l = 0) ∨ (pyMax0 l ∈ l ∧ ∀ x ∈ l, x ≤ pyMax0 l) := by
  cases l with
  | nil => exact Or.inl ⟨rfl, rfl⟩
  | cons a t =>
      refine Or.inr ⟨?_, ?_⟩
      · rcases foldl_max_cases t a with hm | hm
        · rw [pyMax0, hm]; exact List.mem_cons_self a t
        · exact List.mem_cons_of_mem a hm
      · intro x hx
        rcases List.mem_cons.mp hx with rfl | hxt
        · exact le_foldl_max_init t x
        · exact le_foldl_max_mem hxt a

lemma sum_week_metrics_of_empty (records : List Workout) (start stop : ℤ)
    (h : weekFilter records start stop = []) :
    sum_week_metrics records start stop = ⟨0, 0, 0, 0, 0, 0⟩ := by
  simp only [sum_week_metrics, h]
  rfl

/-- C4: the derived metrics satisfy the stated formulas, and the worked
example record (90 min, 3 mi, 20%, 25 lb, RPE 7) yields vertical 3168,
load 4752 and stress 1023.75. -/
theorem c4_metric_formulas :
    (∀ w : Workout,
      vertical_ft w = w.distance_mi * 5280 * (w.incline_pct / 100) ∧
      load_score w = vertical_ft w * (1 + w.pack_lb / 50) ∧
      session_stress w = (w.duration_min : ℚ) * ((max w.rpe 1 : ℤ) : ℚ) * (1 + w.pack_lb / 40)) ∧
    vertical_ft exampleWorkout = 3168 ∧
    load_score exampleWorkout = 4752 ∧
    session_stress exampleWorkout = 1023.75 := by
  refine ⟨fun w => ⟨rfl, rfl, rfl⟩, ?_, ?_, ?_⟩ <;>
    norm_num [vertical_ft, load_score, session_stress, exampleWorkout]

/-- C6: the week window is Monday-anchored and half-open: the start is
`d - (isoWeekday d - 1)`, the end is start + 7, a Monday has offset 0,
and the date always lies inside its own window. -/
theorem c6_week_window (n : ℤ) :
    (week_range n).1 = n - (isoWeekday n - 1) ∧
    (week_range n).2 = (week_range n).1 + 7 ∧
    (weekday n = 0 → (week_range n).1 = n) ∧
    (week_range n).1 ≤ n ∧ n < (week_range n).2 := by
  unfold week_range isoWeekday weekday
  refine ⟨by omega, by omega, fun h => by omega, by omega, by omega⟩

/-- Witness for C6 at the concrete Monday ordinal 738893 (2024-01-08). -/
theorem c6_week_window_witness : (week_range 738893).1 = 738893 :=
  (c6_week_window 738893).2.2.1 (by decide)

/-- C7: aggregation over a window containing no records is total and
yields vertical 0, stress 0, mean pack 0, max duration 0, count 0. -/
theorem c7_empty_window (records : List Workout) (start stop : ℤ)
    (h : weekFilter records start stop = []) :
    (sum_week_metrics records start stop).vert = 0 ∧
    (sum_week_metrics records start stop).stress = 0 ∧
    (sum_week_metrics records start stop).avg_pack = 0 ∧
    (sum_week_metrics records start stop).max_long = 0 ∧
    (sum_week_metrics records start stop).count = 0 := by
  rw [sum_week_metrics_of_empty records start stop h]
  exact ⟨rfl, rfl, rfl, rfl, rfl⟩

/-- Witness for C7 on the empty record store and the window [0, 7). -/
theorem c7_empty_window_witness :
    (sum_week_metrics [] 0 7).vert = 0 ∧
    (sum_week_metrics [] 0 7).stress = 0 ∧
    (sum_week_metrics [] 0 7).avg_pack = 0 ∧
    (sum_week_metrics [] 0 7).max_long = 0 ∧
    (sum_week_metrics [] 0 7).count = 0 :=
  c7_empty_window [] 0 7 rfl

/-- C5: `phase_for` is total and partitions a valid date's calendar year
into the four contiguous half-open intervals [Jan1, Apr1) → Base,
[Apr1, Jun1) → Build, [Jun1, Aug1) → Peak, [Aug1, next Jan1) → Taper,
returning exactly the stated target bundles: the date lies in the year's
span, the boundaries are ordered (so the intervals cannot overlap), and
exactly one interval case applies. -/
theorem c5_phase_partition (d : Date) (h : d.Valid) :
    (¬ dateLt d ⟨d.year, 1, 1⟩ ∧ dateLt d ⟨d.year + 1, 1, 1⟩) ∧
    (dateLt d ⟨d.year, 4, 1⟩ → dateLt d ⟨d.year, 6, 1⟩) ∧
    (dateLt d ⟨d.year, 6, 1⟩ → dateLt d ⟨d.year, 8, 1⟩) ∧
    ((dateLt d ⟨d.year, 4, 1⟩ ∧ phase_for d = ⟨"Base", 1500, 2000, 45, 60, 0, 5⟩) ∨
     (¬ dateLt d ⟨d.year, 4, 1⟩ ∧ dateLt d ⟨d.year, 6, 1⟩ ∧
       phase_for d = ⟨"Build", 3000, 4500, 60, 75, 10, 20⟩) ∨
     (¬ dateLt d ⟨d.year, 6, 1⟩ ∧ dateLt d ⟨d.year, 8, 1⟩ ∧
       phase_for d = ⟨"Peak", 6000, 9000, 75, 90, 20, 35⟩) ∨
     (¬ dateLt d ⟨d.year, 8, 1⟩ ∧ phase_for d = ⟨"Taper", 2000, 3000, 45, 60, 0, 15⟩)) := by
  obtain ⟨hy, hm1, hm2, hd1, hd2⟩ := h
  refine ⟨⟨?_, ?_⟩, ?_, ?_, ?_⟩
  · rw [dateLt_iff]; push_neg; dsimp only; omega
  · rw [dateLt_iff]; dsimp only; omega
  · rw [dateLt_iff, dateLt_iff]; dsimp only; omega
  · rw [dateLt_iff, dateLt_iff]; dsimp only; omega
  · unfold phase_for
    split_ifs with ha hb hc
    · exact Or.inl ⟨ha, rfl⟩
    · exact Or.inr (Or.inl ⟨ha, hb, rfl⟩)
    · exact Or.inr (Or.inr (Or.inl ⟨hb, hc, rfl⟩))
    · exact Or.inr (Or.inr (Or.inr ⟨hc, rfl⟩))

/-- Witness for C5 at the concrete valid date 2024-05-15, which lies in
[Apr 1, Jun 1) and is mapped to the Build targets. -/
theorem c5_phase_partition_witness :
    phase_for ⟨2024, 5, 15⟩ = ⟨"Build", 3000, 4500, 60, 75, 10, 20⟩ := by
  have h := c5_phase_partition ⟨2024, 5, 15⟩ (by decide)
  rcases h.2.2.2 with ⟨ha, _⟩ | ⟨_, _, hb⟩ | ⟨hc, _, _⟩ | ⟨hd, _⟩
  · exact absurd ha (by decide)
  · exact hb
  · exact absurd (show dateLt ⟨2024, 5, 15⟩ ⟨2024, 6, 1⟩ by decide) hc
  · exact absurd (show dateLt ⟨2024, 5, 15⟩ ⟨2024, 8, 1⟩ by decide) hd

/-- C9: the phase-conditional normalization anchor of `readiness_score`
resolves to 9000 on every path, so the score is extensionally equal to
the refactored version using the fixed constant 9000. -/
theorem c9_peak_target_collapsed (records : List Workout) (today : Date) :
    readiness_score records today = readiness_score_collapsed records today := by
  simp only [readiness_score, readiness_score_collapsed, ite_self]

/-- C8: the blend stage of the readiness score is monotonic
non-decreasing in each of mean vertical, mean pack and max duration with
the others held fixed, always lands in [0, 100] (even at a mean vertical
of 50000), and the full score shares the [0, 100] bound. -/
theorem c8_score_monotone_bounded :
    (∀ a b p m : ℚ, a ≤ b → score_blend a p m ≤ score_blend b p m) ∧
    (∀ v a b m : ℚ, a ≤ b → score_blend v a m ≤ score_blend v b m) ∧
    (∀ v p a b : ℚ, a ≤ b → score_blend v p a ≤ score_blend v p b) ∧
    (∀ v p m : ℚ, 0 ≤ score_blend v p m ∧ score_blend v p m ≤ 100) ∧
    (∀ p m : ℚ, score_blend 50000 p m ≤ 100) ∧
    (∀ (records : List Workout) (today : Date),
      0 ≤ readiness_score records today ∧ readiness_score records today ≤ 100) := by
  have hb : ∀ v p m : ℚ, 0 ≤ score_blend v p m ∧ score_blend v p m ≤ 100 := by
    intro v p m
    simp only [score_blend]
    exact ⟨clamp_nonneg _, clamp_le_100 _⟩
  refine ⟨?_, ?_, ?_, hb, fun p m => (hb 50000 p m).2, ?_⟩
  · intro a b p m h
    simp only [score_blend]
    apply clamp_mono
    apply bround_mono
    have h9 : a / 9000 ≤ b / 9000 := by linarith
    nlinarith [h9]
  · intro v a b m h
    simp only [score_blend]
    apply clamp_mono
    apply bround_mono
    have h3 : a / 30 ≤ b / 30 := by linarith
    nlinarith [h3]
  · intro v p a b h
    simp only [score_blend]
    apply clamp_mono
    apply bround_mono
    have h9 : a / 90 ≤ b / 90 := by linarith
    nlinarith [h9]
  · intro records today
    simp only [readiness_score]
    exact ⟨clamp_nonneg _, clamp_le_100 _⟩

/-- Witness for C8 at concrete inputs: monotonicity steps at 0 ≤ 1 in
each argument and the 50000-vertical bound. -/
theorem c8_score_monotone_bounded_witness :
    score_blend 0 0 0 ≤ score_blend 1 0 0 ∧
    score_blend 0 0 0 ≤ score_blend 0 1 0 ∧
    score_blend 0 0 0 ≤ score_blend 0 0 1 ∧
    score_blend 50000 0 0 ≤ 100 :=
  ⟨c8_score_monotone_bounded.1 0 1 0 0 (by norm_num),
   c8_score_monotone_bounded.2.1 0 0 1 0 (by norm_num),
   c8_score_monotone_bounded.2.2.1 0 0 0 1 (by norm_num),
   c8_score_monotone_bounded.2.2.2.2.1 0 0⟩

/-- C10: when no record falls in the current Monday-anchored week nor in
the previous week, `risk_flags` raises the undertraining flag, since
both weekly ratios are 0 < 0.7. -/
theorem c10_undertraining_empty_weeks (records : List Workout) (d : Date)
    (h1 : weekFilter records (week_range d.toOrdinal).1 (week_range d.toOrdinal).2 = [])
    (h2 : weekFilter records ((week_range d.toOrdinal).1 - 7)
      ((week_range d.toOrdinal).2 - 7) = []) :
    (risk_flags records d).undertraining = true := by
  show undertrainingFlag
      (sum_week_metrics records (week_range d.toOrdinal).1 (week_range d.toOrdinal).2)
      (sum_week_metrics records ((week_range d.toOrdinal).1 - 7) ((week_range d.toOrdinal).2 - 7))
      (phase_for d) = true
  rw [sum_week_metrics_of_empty records _ _ h1, sum_week_metrics_of_empty records _ _ h2]
  unfold undertrainingFlag
  simp only [decide_eq_true_eq]
  split_ifs <;> norm_num

/-- Witness for C10: the entirely empty record store at 2024-01-08
raises the undertraining flag. -/
theorem c10_undertraining_empty_weeks_witness :
    (risk_flags [] d1).undertraining = true :=
  c10_undertraining_empty_weeks [] d1 rfl rfl

lemma overuseRpeFlag_iff (records : List Workout) (n : ℤ) :
    overuseRpeFlag records n = true ↔
      (rpeWindow records n ≠ [] ∧
        7 * ((rpeWindow records n).length : ℚ) ≤
          ((rpeWindow records n).map (fun r => (r.rpe : ℚ))).sum) := by
  unfold overuseRpeFlag
  cases hl : rpeWindow records n with
  | nil => simp
  | cons w ws =>
      have hpos : (0 : ℚ) < ((w :: ws).length : ℚ) := by
        exact_mod_cast Nat.succ_pos ws.length
      simp only [decide_eq_true_eq, ne_eq, reduceCtorEq, not_false_eq_true, true_and]
      rw [le_div_iff₀ hpos]

/-- C1 (amended): the overuse_rpe flag is raised exactly when the
trailing window [today-7, today] — eight days inclusive, as queried by
the source with `session_date >= today - 7` — is non-empty and the mean
RPE over it is at least 7; with no records there, the flag is absent. -/
theorem c1_overuse_rpe_window (records : List Workout) (today : Date) :
    (risk_flags records today).overuse_rpe = true ↔
      (rpeWindow records today.toOrdinal ≠ [] ∧
        7 * ((rpeWindow records today.toOrdinal).length : ℚ) ≤
          ((rpeWindow records today.toOrdinal).map (fun r => (r.rpe : ℚ))).sum) :=
  overuseRpeFlag_iff records today.toOrdinal

/-- C1 counterexample: an RPE-10 session dated exactly 7 days before
2024-01-08 lies outside the claim's window [today-6, today], yet the
flag is raised. -/
theorem c1_overuse_rpe_window_cex :
    (risk_flags [rec1] d1).overuse_rpe = true ∧
    [rec1].filter (fun w =>
      decide (d1.toOrdinal - 6 ≤ w.session_date ∧ w.session_date ≤ d1.toOrdinal)) = [] := by
  constructor
  · show overuseRpeFlag [rec1] d1.toOrdinal = true
    rw [overuseRpeFlag_iff]
    have hl : rpeWindow [rec1] d1.toOrdinal = [rec1] := by decide
    rw [hl]
    norm_num [rec1]
  · decide

/-- Witness for C1 at the concrete store [rec1] and date 2024-01-08. -/
theorem c1_overuse_rpe_window_witness :
    (risk_flags [rec1] d1).overuse_rpe = true := by
  rw [c1_overuse_rpe_window]
  have hl : rpeWindow [rec1] d1.toOrdinal = [rec1] := by decide
  rw [hl]
  norm_num [rec1]

lemma injuryFlag_iff (records : List Workout) (n : ℤ) :
    injuryFlag records n = true ↔
      ∃ w ∈ records, n - 14 ≤ w.session_date ∧ ∃ s, w.notes = some s ∧ noteHit s = true := by
  unfold injuryFlag
  simp only [List.any_eq_true, List.mem_map, List.mem_filter, Bool.and_eq_true,
    decide_eq_true_eq, Option.isSome_iff_exists]
  constructor
  · rintro ⟨o, ⟨w, ⟨hw, hd, s, hs⟩, rfl⟩, hh⟩
    refine ⟨w, hw, hd, s, hs, ?_⟩
    rw [hs] at hh
    exact hh
  · rintro ⟨w, hw, hd, s, hs, hhit⟩
    refine ⟨w.notes, ⟨w, ⟨hw, hd, s, hs⟩, rfl⟩, ?_⟩
    rw [hs]
    exact hhit

/-- C3 (amended): the injury_signal flag is raised exactly when some
record with `session_date >= today - 14` — the query has no upper bound,
so future-dated records also count — carries a note containing one of
the keywords case-insensitively; as the spec's examples state, the note
"mild right knee soreness" 10 days before today triggers the flag and
the identical note 15 days before does not. -/
theorem c3_injury_window :
    (∀ (records : List Workout) (today : Date),
      (risk_flags records today).injury_signal = true ↔
        ∃ w ∈ records, today.toOrdinal - 14 ≤ w.session_date ∧
          ∃ s, w.notes = some s ∧ noteHit s = true) ∧
    (∀ today : Date,
      (risk_flags [soreRec (today.toOrdinal - 10)] today).injury_signal = true) ∧
    (∀ today : Date,
      (risk_flags [soreRec (today.toOrdinal - 15)] today).injury_signal = false) := by
  refine ⟨fun records today => injuryFlag_iff records today.toOrdinal, ?_, ?_⟩
  · intro today
    show injuryFlag [soreRec (today.toOrdinal - 10)] today.toOrdinal = true
    rw [injuryFlag_iff]
    exact ⟨soreRec (today.toOrdinal - 10), by simp, by simp only [soreRec]; omega, soreNote,
      rfl, by decide⟩
  · intro today
    show injuryFlag [soreRec (today.toOrdinal - 15)] today.toOrdinal = false
    have h : ¬ injuryFlag [soreRec (today.toOrdinal - 15)] today.toOrdinal = true := by
      rw [injuryFlag_iff]
      rintro ⟨w, hw, hd, -⟩
      rw [List.mem_singleton] at hw
      subst hw
      simp only [soreRec] at hd
      omega
    rcases Bool.eq_false_or_eq_true (injuryFlag [soreRec (today.toOrdinal - 15)] today.toOrdinal)
      with hb | hb
    · exact absurd hb h
    · exact hb

/-- C3 counterexample: a record dated 5 days after 2024-01-08 with the
note "knee pain" raises the flag although no record lies in the claim's
window [today-14, today]. -/
theorem c3_injury_window_cex :
    (risk_flags [futRec] d1).injury_signal = true ∧
    [futRec].filter (fun w =>
      decide (d1.toOrdinal - 14 ≤ w.session_date ∧ w.session_date ≤ d1.toOrdinal)) = [] := by
  constructor
  · show injuryFlag [futRec] d1.toOrdinal = true
    rw [injuryFlag_iff]
    exact ⟨futRec, by simp, by decide, kneePainNote, rfl, by decide⟩
  · decide

/-- Witness for C3: the 10-days-before sore-knee example at 2024-01-08. -/
theorem c3_injury_window_witness :
    (risk_flags [soreRec (d1.toOrdinal - 10)] d1).injury_signal = true :=
  c3_injury_window.2.1 d1

/-- C2 (amended): the 28-day max-duration term used by the readiness
score is the maximum session duration over the records with
`session_date` in [start_of_this_week - 28, today] (both ends
inclusive), and 0 when that window is empty. -/
theorem c2_max_duration_window (records : List Workout) (n : ℤ) :
    (win28 records n = [] → max_long_28 records n = 0) ∧
    (win28 records n ≠ [] →
      (∃ w ∈ win28 records n, max_long_28 records n = w.duration_min) ∧
      ∀ w ∈ win28 records n, w.duration_min ≤ max_long_28 records n) := by
  constructor
  · intro h
    unfold max_long_28
    rw [h]
    rfl
  · intro h
    unfold max_long_28
    rcases pyMax0_spec ((win28 records n).map (fun w => w.duration_min)) with ⟨he, -⟩ | ⟨hm, hb⟩
    · exact absurd (List.map_eq_nil_iff.mp he) h
    · constructor
      · rcases List.mem_map.mp hm with ⟨w, hw, he⟩
        exact ⟨w, hw, he.symm⟩
      · intro w hw
        exact hb _ (List.mem_map_of_mem _ hw)

lemma bround_zero : bround 0 = 0 := by norm_num [bround]

lemma series_recC2 :
    (last_n_weeks_series [recC2] 738892 4).verts = [0, 0, 0, 0] ∧
    (last_n_weeks_series [recC2] 738892 4).packs = [0, 0, 0, 0] := by
  have hr : (List.range 4).reverse = [3, 2, 1, 0] := by decide
  constructor <;>
  · simp only [last_n_weeks_series, hr, List.map_cons, List.map_nil]
    simp (disch := decide) only [sum_week_metrics_of_empty]
    norm_num [bround, round1]

lemma readiness_recC2 : readiness_score [recC2] d2 = 100 := by
  have hord : d2.toOrdinal = 738892 := by decide
  have hmax : max_long_28 [recC2] 738892 = 500 := by decide
  simp only [readiness_score, hord, series_recC2.1, series_recC2.2, hmax, ite_self]
  norm_num [bround]

/-- C2 counterexample: on Sunday 2024-01-07 a 500-minute session dated
30 days earlier is outside the claim's window [today-28, today] (which
holds no record at all), yet the score uses max duration 500 and comes
out as 100 instead of the 0 the claim's window would give. -/
theorem c2_max_duration_window_cex :
    max_long_28 [recC2] d2.toOrdinal = 500 ∧
    [recC2].filter (fun w =>
      decide (d2.toOrdinal - 28 ≤ w.session_date ∧ w.session_date ≤ d2.toOrdinal)) = [] ∧
    readiness_score [recC2] d2 = 100 :=
  ⟨by decide, by decide, readiness_recC2⟩

/-- Witness for C2 on the concrete store [recC2] at ordinal 738892,
whose 28-day window is non-empty. -/
theorem c2_max_duration_window_witness :
    ∃ w ∈ win28 [recC2] 738892, max_long_28 [recC2] 738892 = w.duration_min :=
  ((c2_max_duration_window [recC2] 738892).2 (by decide)).1
